import Mathlib

/-!
Verification of the AI response normalization layer of the Edu_forge
repository (the generation functions in `src/server/gemini.ts` and the
duplicated provider-integration file `src/unnamed/part_002`).

The embedding models, per source function, the processing applied to the
raw text returned by the generative-model provider: markdown fence
stripping, JSON parsing, and the error handling of the surrounding
try/catch blocks.  The provider call itself is the system boundary; every
function is modelled as a function of the raw text the provider returned.
-/

/-! ## JSON values

`Json` models the values produced by the JavaScript built-in
`JSON.parse`.  Numbers are kept exact as `mantissa * 10 ^ exp10`
(an integer literal such as `2` parses to `Json.num 2 0`); every number
appearing in the repository's data is a small integer, for which the
JavaScript double representation is also exact. -/

inductive Json where
  | null
  | bool (b : Bool)
  | num (mantissa : Int) (exp10 : Int)
  | str (s : String)
  | arr (elems : List Json)
  | obj (fields : List (String × Json))

/-- Field lookup on a parsed JSON object, last-binding-wins as in a
JavaScript object literal built by `JSON.parse`. -/
def Json.getField (j : Json) (k : String) : Option Json :=
  match j with
  | .obj fs => ((fs.filter (fun kv => kv.fst == k)).getLast?).map (fun kv => kv.snd)
  | _ => none

/-! ## A model of `JSON.parse`

A recursive-descent parser over the character list of the input, faithful
to the JSON grammar accepted by `JSON.parse`: optional whitespace
(space, tab, line feed, carriage return) around tokens, strings with the
JSON escape set, strict number syntax, objects, arrays, `true`, `false`,
`null`, and nothing trailing the top-level value. -/

/-- JSON insignificant whitespace: space, tab, LF, CR. -/
def jsonWs (c : Char) : Bool :=
  c = ' ' ∨ c = '\t' ∨ c = '\n' ∨ c = '\r'

def skipWs : List Char → List Char
  | [] => []
  | c :: cs => if jsonWs c then skipWs cs else c :: cs

def takeDigits : List Char → List Char × List Char
  | [] => ([], [])
  | c :: cs =>
    if c.isDigit then
      let (ds, r) := takeDigits cs
      (c :: ds, r)
    else ([], c :: cs)

def digitsVal (ds : List Char) : Nat :=
  ds.foldl (fun a c => a * 10 + (c.toNat - 48)) 0

/-- Hexadecimal digit test (for `\u` escapes). -/
def isHexDig (c : Char) : Bool :=
  c.isDigit ∨ ('a' ≤ c ∧ c ≤ 'f') ∨ ('A' ≤ c ∧ c ≤ 'F')

/-- Body of a JSON string literal, after the opening quote; returns the
decoded string and the input after the closing quote. -/
def parseStrBody (acc : List Char) (s : List Char) : Option (String × List Char) :=
  match s with
  | [] => none
  | '\x22' :: r => some (String.mk acc.reverse, r)
  | '\\' :: e :: r =>
    match e with
    | '\x22' => parseStrBody ('\x22' :: acc) r
    | '\\' => parseStrBody ('\\' :: acc) r
    | '/' => parseStrBody ('/' :: acc) r
    | 'b' => parseStrBody ('\x08' :: acc) r
    | 'f' => parseStrBody ('\x0c' :: acc) r
    | 'n' => parseStrBody ('\n' :: acc) r
    | 'r' => parseStrBody ('\r' :: acc) r
    | 't' => parseStrBody ('\t' :: acc) r
    | 'u' =>
      match r with
      | a :: b :: c :: d :: r2 =>
        if isHexDig a ∧ isHexDig b ∧ isHexDig c ∧ isHexDig d then
          let hv : Char → Nat := fun x =>
            if x.isDigit then x.toNat - 48
            else if 'a' ≤ x ∧ x ≤ 'f' then x.toNat - 87
            else x.toNat - 55
          parseStrBody (Char.ofNat (((hv a * 16 + hv b) * 16 + hv c) * 16 + hv d) :: acc) r2
        else none
      | _ => none
    | _ => none
  | c :: r => if c.toNat < 32 then none else parseStrBody (c :: acc) r

/-- Integer part of a JSON number: a single `0`, or a nonzero digit
followed by digits (JSON forbids leading zeros). -/
def parseIntDigits : List Char → Option (List Char × List Char)
  | '0' :: r => some (['0'], r)
  | c :: r =>
    if c.isDigit then
      let (ds, r2) := takeDigits r
      some (c :: ds, r2)
    else none
  | [] => none

/-- Optional fraction part; at least one digit required after the dot. -/
def parseFracDigits : List Char → Option (List Char × List Char)
  | '.' :: r =>
    let (ds, r2) := takeDigits r
    if ds.isEmpty then none else some (ds, r2)
  | s => some ([], s)

/-- Optional exponent part. -/
def parseExpVal : List Char → Option (Int × List Char)
  | c :: r =>
    if c = 'e' ∨ c = 'E' then
      let (sgn, r1) : Int × List Char :=
        match r with
        | '+' :: r2 => (1, r2)
        | '-' :: r2 => (-1, r2)
        | _ => (1, r)
      let (ds, r2) := takeDigits r1
      if ds.isEmpty then none else some (sgn * (digitsVal ds : Int), r2)
    else some (0, c :: r)
  | [] => some (0, [])

def parseNumber (s : List Char) : Option (Json × List Char) :=
  let (neg, s1) : Bool × List Char :=
    match s with
    | '-' :: r => (true, r)
    | _ => (false, s)
  match parseIntDigits s1 with
  | none => none
  | some (ids, r1) =>
    match parseFracDigits r1 with
    | none => none
    | some (fds, r2) =>
      match parseExpVal r2 with
      | none => none
      | some (ex, r3) =>
        let mAbs : Int := (digitsVal (ids ++ fds) : Int)
        some (.num (if neg then -mAbs else mAbs) (ex - (fds.length : Int)), r3)

mutual

/-- A JSON value, preceded by optional whitespace. -/
def parseValue : Nat → List Char → Option (Json × List Char)
  | 0, _ => none
  | fuel + 1, s =>
    match skipWs s with
    | '\x7b' :: r =>
      match skipWs r with
      | '\x7d' :: r2 => some (.obj [], r2)
      | r2 => (parseMembers fuel r2).map (fun (fs, r3) => (.obj fs, r3))
    | '[' :: r =>
      match skipWs r with
      | ']' :: r2 => some (.arr [], r2)
      | r2 => (parseElems fuel r2).map (fun (es, r3) => (.arr es, r3))
    | '\x22' :: r => (parseStrBody [] r).map (fun (t, r2) => (.str t, r2))
    | 't' :: 'r' :: 'u' :: 'e' :: r => some (.bool true, r)
    | 'f' :: 'a' :: 'l' :: 's' :: 'e' :: r => some (.bool false, r)
    | 'n' :: 'u' :: 'l' :: 'l' :: r => some (.null, r)
    | s1 => parseNumber s1

/-- Members of a JSON object, up to and including the closing brace. -/
def parseMembers : Nat → List Char → Option (List (String × Json) × List Char)
  | 0, _ => none
  | fuel + 1, s =>
    match skipWs s with
    | '\x22' :: r =>
      match parseStrBody [] r with
      | none => none
      | some (key, r2) =>
        match skipWs r2 with
        | ':' :: r3 =>
          match parseValue fuel r3 with
          | none => none
          | some (v, r4) =>
            match skipWs r4 with
            | ',' :: r5 => (parseMembers fuel r5).map (fun (fs, r6) => ((key, v) :: fs, r6))
            | '\x7d' :: r5 => some ([(key, v)], r5)
            | _ => none
        | _ => none
    | _ => none

/-- Elements of a JSON array, up to and including the closing bracket. -/
def parseElems : Nat → List Char → Option (List Json × List Char)
  | 0, _ => none
  | fuel + 1, s =>
    match parseValue fuel s with
    | none => none
    | some (v, r) =>
      match skipWs r with
      | ',' :: r2 => (parseElems fuel r2).map (fun (es, r3) => (v :: es, r3))
      | ']' :: r2 => some ([v], r2)
      | _ => none

end

/-- Model of the JavaScript built-in `JSON.parse` applied to `s`:
`some v` when `s` is a valid JSON document denoting `v`, `none` when
`JSON.parse` would throw a `SyntaxError`.  The fuel `2 * length + 2`
strictly dominates the recursion depth, so it never cuts a parse short. -/
def jsonParse (s : String) : Option Json :=
  match parseValue (2 * s.data.length + 2) s.data with
  | some (v, r) => if skipWs r = [] then some v else none
  | none => none

/-! ## Markdown fence stripping

`src/unnamed/part_002` post-processes the provider text with
`.replace(/```json/g, "").replace(/```/g, "")`: a global, single-pass,
left-to-right removal of every occurrence of the pattern, first the
seven-character pattern, then the three-character one.  `stripAllF`
models one such global replace over the character list; the fuel is
always at least the length of the input, which the recursion preserves,
so the fuel never runs out before the input is consumed. -/

/-- `leadsWith p s` holds when the pattern `p` matches at the start of
`s` (the regex engine's test at the current scan position). -/
def leadsWith : List Char → List Char → Bool
  | [], _ => true
  | _ :: _, [] => false
  | a :: ps, b :: ss => if a = b then leadsWith ps ss else false

/-- One global `String.replace(pattern, "")`: scan left to right; on a
match skip the whole pattern and continue after it (never rescanning the
output), otherwise emit one character and continue. -/
def stripAllF : Nat → List Char → List Char → List Char
  | 0, _, s => s
  | fuel + 1, p, s =>
    match s with
    | [] => []
    | c :: cs =>
      if p ≠ [] ∧ leadsWith p (c :: cs) then
        stripAllF fuel p ((c :: cs).drop p.length)
      else
        c :: stripAllF fuel p cs

/-- The three-character closing fence pattern. -/
def fence3 : List Char := "```".data

/-- The seven-character opening fence pattern. -/
def fenceJson : List Char := "```json".data

/-- The cleanup applied by the structured generation functions of
`src/unnamed/part_002`:
`text.replace(/```json/g, "").replace(/```/g, "")`. -/
def stripFences (s : String) : String :=
  let t1 := stripAllF s.data.length fenceJson s.data
  String.mk (stripAllF t1.length fence3 t1)

/-! ## The generation functions, per source file

Each function is embedded as the transformation it applies to the raw
text obtained from the provider (`result.response.text()` /
`response.text` / `message.content`); the surrounding `try`/`catch`
block is modelled by mapping every failure of the body to the fixed
generic error the `catch` clause throws. -/

namespace Part002

/-- `generateQuiz` of `src/unnamed/part_002` (lines 66–76), as a
function of the raw provider text: strip fences, `JSON.parse`, and
return the parsed value with no further validation; any parse failure is
caught and rethrown as the generic error `"Failed to generate quiz"`. -/
def generateQuizFromText (raw : String) : Except String Json :=
  match jsonParse (stripFences raw) with
  | some v => Except.ok v
  | none => Except.error ("Failed to generate quiz")

/-- `generateFlashcards` of `src/unnamed/part_002` (lines 78–88). -/
def generateFlashcardsFromText (raw : String) : Except String Json :=
  match jsonParse (stripFences raw) with
  | some v => Except.ok v
  | none => Except.error ("Failed to generate flashcards")

/-- `generateInterviewQuestions` of `src/unnamed/part_002`
(lines 90–100). -/
def generateInterviewQuestionsFromText (raw : String) : Except String Json :=
  match jsonParse (stripFences raw) with
  | some v => Except.ok v
  | none => Except.error ("Failed to generate interview questions")

/-- `generateExplanation` of `src/unnamed/part_002` (lines 48–64):
the raw text is returned as-is (`return result.response.text()`), with
no empty check, no trimming and no JSON parsing. -/
def generateExplanationFromText (raw : String) : Except String String :=
  Except.ok raw

/-- The response handling of `generateChatResponse` in
`src/unnamed/part_002` (line 121):
`return response.choices[0].message.content || "I'm not sure how to
respond to that. Can you ask another way?"` — `content` is nullable and
the JavaScript `||` substitutes the placeholder for `null` and for the
empty string. -/
def generateChatResponseFromContent (content : Option String) : Except String String :=
  Except.ok
    (match content with
     | some c => if c = "" then "I\x27m not sure how to respond to that. Can you ask another way?" else c
     | none => "I\x27m not sure how to respond to that. Can you ask another way?")

end Part002

namespace GeminiTs

/-- The distinct failure causes inside the `try` block of `generateQuiz`
in `src/server/gemini.ts` (lines 101–115), before the `catch` collapses
them: the explicit `throw new Error("Empty response from model")` on
falsy text, and the `SyntaxError` of `JSON.parse`. -/
inductive QuizFailure where
  | emptyResponse
  | parseError
deriving DecidableEq

/-- The `try` body of `generateQuiz` in `src/server/gemini.ts`
(lines 101–110): if the raw text is truthy (non-empty) parse it and
return the result unvalidated, otherwise throw the empty-response
error.  Note: no fence stripping in this variant. -/
def quizAttempt (raw : String) : Except QuizFailure Json :=
  if raw = "" then Except.error QuizFailure.emptyResponse
  else
    match jsonParse raw with
    | some v => Except.ok v
    | none => Except.error QuizFailure.parseError

/-- `generateQuiz` of `src/server/gemini.ts` (lines 80–115) as seen by
its caller: the `catch` clause maps every failure of the body to the
generic `"Failed to generate quiz"` error. -/
def generateQuizFromText (raw : String) : Except String Json :=
  match quizAttempt raw with
  | Except.ok v => Except.ok v
  | Except.error _ => Except.error ("Failed to generate quiz")

/-- `generateFlashcards` of `src/server/gemini.ts` (lines 117–146). -/
def generateFlashcardsFromText (raw : String) : Except String Json :=
  if raw = "" then Except.error ("Failed to generate flashcards")
  else
    match jsonParse raw with
    | some v => Except.ok v
    | none => Except.error ("Failed to generate flashcards")

/-- `generateInterviewQuestions` of `src/server/gemini.ts`
(lines 188–215). -/
def generateInterviewQuestionsFromText (raw : String) : Except String Json :=
  if raw = "" then Except.error ("Failed to generate interview questions")
  else
    match jsonParse raw with
    | some v => Except.ok v
    | none => Except.error ("Failed to generate interview questions")

/-- `generateExplanation` of `src/server/gemini.ts` (lines 51–78):
`return response.text();` — the raw text is returned verbatim, with no
empty check, no trimming and no JSON parsing. -/
def generateExplanationFromText (raw : String) : Except String String :=
  Except.ok raw

end GeminiTs

namespace GeminiV2

/-- The response handling of the second `generateExplanation` variant in
`src/server/gemini.ts` (lines 343–352):
`return response.text || "Unable to generate explanation.";` — the
nullable `response.text` falls back to a fixed placeholder, returned as
a successful result. -/
def generateExplanationFromText (raw : Option String) : Except String String :=
  Except.ok
    (match raw with
     | some t => if t = "" then "Unable to generate explanation." else t
     | none => "Unable to generate explanation.")

/-- The response handling of `analyzeQuizPerformance` in
`src/server/gemini.ts` (lines 507–516):
`return response.text || "Unable to analyze performance.";`. -/
def analyzeQuizPerformanceFromText (raw : Option String) : Except String String :=
  Except.ok
    (match raw with
     | some t => if t = "" then "Unable to analyze performance." else t
     | none => "Unable to analyze performance.")

end GeminiV2

/-! ## Explanation prompt construction

`generateExplanation` (identical in `src/server/gemini.ts` lines 51–68
and `src/unnamed/part_002` lines 48–55) selects the instruction template
by a `switch` over the three-valued `difficulty` union type, then
appends ``` Context: ${request.context}``` only when `request.context`
is truthy (present and non-empty). -/

inductive Difficulty where
  | beginner
  | intermediate
  | advanced
deriving DecidableEq

/-- `ExplanationRequest` of the source: `topic`, `difficulty` (a union
of the three literals), optional `context`. -/
structure ExplanationRequest where
  topic : String
  difficulty : Difficulty
  context : Option String

/-- The prompt built by `generateExplanation` before the provider call. -/
def explanationPrompt (req : ExplanationRequest) : String :=
  let prompt :=
    match req.difficulty with
    | .beginner =>
      "Explain \"" ++ req.topic ++ "\" like I\x27m 10 years old. Use simple words, analogies, and make it fun and easy to understand. Include examples that a child would relate to."
    | .intermediate =>
      "Provide a quick revision summary of \"" ++ req.topic ++ "\". Focus on key points, important concepts, and essential information. Make it concise but comprehensive for someone who needs a refresher."
    | .advanced =>
      "Provide a college-level, in-depth explanation of \"" ++ req.topic ++ "\". Include technical details, theoretical foundations, practical applications, and advanced concepts. Assume the reader has some background knowledge."
  match req.context with
  | some c => if c = "" then prompt else prompt ++ " Context: " ++ c
  | none => prompt

/-! ## Auxiliary definitions used by the statements and proofs -/

/-- `occursIn p s`: the pattern `p` occurs as a contiguous run inside
`s`. -/
def occursIn (p s : List Char) : Prop := ∃ u v, s = u ++ p ++ v

/-- Executable occurrence test, equivalent to `occursIn`. -/
def occursInB (p s : List Char) : Bool :=
  match s with
  | [] => p.isEmpty
  | c :: cs => leadsWith p (c :: cs) || occursInB p cs

/-- The backtick character. -/
def tick : Char := Char.ofNat 96

/-- The successful value of a generation call, when there is one. -/
def okValue : Except String Json → Option Json
  | Except.ok v => some v
  | Except.error _ => none

/-- Whitespace for `specTrimmed`. -/
def trimWsChar (c : Char) : Bool :=
  c = ' ' ∨ c = '\t' ∨ c = '\n' ∨ c = '\r'

/-- Stated from the specification for comparison with the source: the
trimming the spec says free-form results receive ("the raw text,
trimmed"), i.e. removal of leading and trailing whitespace.  The source
functions perform no such operation. -/
def specTrimmed (s : String) : String :=
  String.mk (((s.data.dropWhile trimWsChar).reverse.dropWhile trimWsChar).reverse)

/-! ## Idempotence of the fence-stripping cleanup -/

theorem leadsWith_iff (p : List Char) : ∀ s, leadsWith p s = true ↔ ∃ t, s = p ++ t := by
  induction p with
  | nil => intro s; simp [leadsWith]
  | cons a ps ih =>
    intro s
    cases s with
    | nil =>
      simp [leadsWith]
    | cons b ss =>
      constructor
      · intro h
        by_cases hab : a = b
        · simp [leadsWith, hab] at h
          obtain ⟨t, ht⟩ := (ih ss).mp h
          exact ⟨t, by simp [hab, ht]⟩
        · simp [leadsWith, hab] at h
      · rintro ⟨t, ht⟩
        rw [List.cons_append] at ht
        injection ht with h1 h2
        subst h1
        have := (ih ss).mpr ⟨t, h2⟩
        simp [leadsWith, this]

theorem occursIn_of_tail {p : List Char} {c : Char} {s : List Char}
    (h : occursIn p s) : occursIn p (c :: s) := by
  obtain ⟨u, v, hv⟩ := h
  exact ⟨c :: u, v, by simp [hv]⟩

theorem occursIn_cons_elim {p : List Char} {c : Char} {s : List Char}
    (h : occursIn p (c :: s)) : (∃ t, c :: s = p ++ t) ∨ occursIn p s := by
  obtain ⟨u, v, hv⟩ := h
  cases u with
  | nil => exact Or.inl ⟨v, by simpa using hv⟩
  | cons a u2 =>
    rw [List.cons_append, List.cons_append] at hv
    injection hv with h1 h2
    exact Or.inr ⟨u2, v, h2⟩

theorem not_occursIn_nil {p : List Char} (hp : p ≠ []) : ¬ occursIn p [] := by
  rintro ⟨u, v, hv⟩
  have hlen := congrArg List.length hv
  simp [List.length_append] at hlen
  cases p with
  | nil => exact hp rfl
  | cons a ps => simp [List.length_append] at hlen; omega

/-- If a pattern never occurs, the global replace is the identity. -/
theorem stripAllF_id_of_not_occurs :
    ∀ (f : Nat) (p s : List Char), ¬ occursIn p s → stripAllF f p s = s := by
  intro f
  induction f with
  | zero => intro p s _; rfl
  | succ f ih =>
    intro p s h
    cases s with
    | nil => rfl
    | cons c cs =>
      have hguard : ¬ (p ≠ [] ∧ leadsWith p (c :: cs)) := by
        rintro ⟨hp, hl⟩
        obtain ⟨t, ht⟩ := (leadsWith_iff p (c :: cs)).mp hl
        exact h ⟨[], t, by simpa using ht⟩
      simp only [stripAllF, if_neg hguard]
      have : ¬ occursIn p cs := fun hocc => h (occursIn_of_tail hocc)
      rw [ih p cs this]

theorem fence3_chars : fence3 = [tick, tick, tick] := by decide

theorem fenceJson_decomp : fenceJson = fence3 ++ "json".data := by decide

theorem stripAllF_tick_head :
    ∀ (f : Nat) (s t : List Char), stripAllF f fence3 s = tick :: t → ∃ u, s = tick :: u := by
  intro f s t h
  cases f with
  | zero => exact ⟨t, h⟩
  | succ f =>
    cases s with
    | nil => simp [stripAllF] at h
    | cons c cs =>
      by_cases hg : fence3 ≠ [] ∧ leadsWith fence3 (c :: cs)
      · have hl := hg.2
        rw [fence3_chars] at hl
        by_cases hc : tick = c
        · exact ⟨cs, by rw [← hc]⟩
        · simp [leadsWith, hc] at hl
      · simp only [stripAllF, if_neg hg] at h
        injection h with h1 h2
        exact ⟨cs, by rw [h1]⟩

theorem stripAllF_two_ticks_head :
    ∀ (f : Nat) (s t : List Char), stripAllF f fence3 s = tick :: tick :: t →
      ∃ u, s = tick :: tick :: u := by
  intro f s t h
  cases f with
  | zero => exact ⟨t, h⟩
  | succ f =>
    cases s with
    | nil => simp [stripAllF] at h
    | cons c cs =>
      by_cases hg : fence3 ≠ [] ∧ leadsWith fence3 (c :: cs)
      · obtain ⟨t2, ht⟩ := (leadsWith_iff fence3 (c :: cs)).mp hg.2
        rw [fence3_chars] at ht
        injection ht with h1 h2
        exact ⟨tick :: t2, by rw [h1, h2]; rfl⟩
      · simp only [stripAllF, if_neg hg] at h
        injection h with h1 h2
        obtain ⟨u, hu⟩ := stripAllF_tick_head f cs _ h2
        exact ⟨u, by rw [h1, hu]⟩

/-- After one global removal of the three-backtick pattern, the output
contains no further occurrence of it: a leftmost non-overlapping scan
cannot recreate the pattern across a removal site. -/
theorem stripAllF_no_fence :
    ∀ (f : Nat) (s : List Char), s.length ≤ f →
      ¬ occursIn fence3 (stripAllF f fence3 s) := by
  intro f
  induction f with
  | zero =>
    intro s hs
    have hnil : s = [] := List.length_eq_zero.mp (Nat.le_zero.mp hs)
    subst hnil
    exact not_occursIn_nil (by decide)
  | succ f ih =>
    intro s hs
    cases s with
    | nil =>
      simp only [stripAllF]
      exact not_occursIn_nil (by decide)
    | cons c cs =>
      by_cases hg : fence3 ≠ [] ∧ leadsWith fence3 (c :: cs)
      · simp only [stripAllF, if_pos hg]
        apply ih
        simp only [List.length_drop, List.length_cons,
          show fence3.length = 3 from by decide]
        simp only [List.length_cons] at hs
        omega
      · simp only [stripAllF, if_neg hg]
        intro hocc
        rcases occursIn_cons_elim hocc with ⟨t, ht⟩ | hocc2
        · rw [fence3_chars] at ht
          injection ht with h1 h2
          obtain ⟨u, hu⟩ := stripAllF_two_ticks_head f cs t h2
          apply hg
          refine ⟨by decide, ?_⟩
          rw [h1, hu, fence3_chars]
          simp [leadsWith]
        · refine ih cs ?_ hocc2
          simp only [List.length_cons] at hs
          omega

theorem not_occursIn_fenceJson {s : List Char} (h : ¬ occursIn fence3 s) :
    ¬ occursIn fenceJson s := by
  rintro ⟨u, v, hv⟩
  apply h
  refine ⟨u, "json".data ++ v, ?_⟩
  rw [hv, fenceJson_decomp]
  simp [List.append_assoc]

/-- A string free of triple backticks is a fixed point of the cleanup. -/
theorem stripFences_fixed {z : List Char} (h : ¬ occursIn fence3 z) :
    stripFences (String.mk z) = String.mk z := by
  show String.mk (stripAllF (stripAllF z.length fenceJson z).length fence3
    (stripAllF z.length fenceJson z)) = String.mk z
  rw [stripAllF_id_of_not_occurs z.length fenceJson z (not_occursIn_fenceJson h)]
  rw [stripAllF_id_of_not_occurs z.length fence3 z h]

/-- C7: the fence-stripping cleanup of the structured generation
functions (remove every occurrence of the three-backtick-json opening
marker, then every occurrence of the three-backtick marker) is
idempotent: applying it twice yields the same string as applying it
once. -/
theorem C7_strip_idempotent (s : String) : stripFences (stripFences s) = stripFences s := by
  have h := stripAllF_no_fence (stripAllF s.data.length fenceJson s.data).length
    (stripAllF s.data.length fenceJson s.data) (Nat.le_refl _)
  exact stripFences_fixed h


theorem occursInB_iff (p : List Char) : ∀ s, occursInB p s = true ↔ occursIn p s := by
  intro s
  induction s with
  | nil =>
    simp only [occursInB]
    constructor
    · intro h
      cases p with
      | nil => exact ⟨[], [], rfl⟩
      | cons a ps => simp [List.isEmpty] at h
    · rintro ⟨u, v, hv⟩
      have hlen := congrArg List.length hv
      simp [List.length_append] at hlen
      cases p with
      | nil => rfl
      | cons a ps => simp [List.length_append] at hlen; omega
  | cons c cs ih =>
    simp only [occursInB, Bool.or_eq_true, ih, leadsWith_iff]
    constructor
    · rintro (⟨t, ht⟩ | h)
      · exact ⟨[], t, by simpa using ht⟩
      · exact occursIn_of_tail h
    · intro h
      rcases occursIn_cons_elim h with h | h
      · exact Or.inl h
      · exact Or.inr h

theorem explanationPrompt_len_beginner (t : String) :
    (explanationPrompt ⟨t, .beginner, none⟩).length = 149 + t.length := by
  simp only [explanationPrompt, String.length_append]
  rw [show ("Explain \"" : String).length = 9 from rfl,
    show ("\" like I\x27m 10 years old. Use simple words, analogies, and make it fun and easy to understand. Include examples that a child would relate to." : String).length = 140 from rfl]
  omega

theorem explanationPrompt_len_intermediate (t : String) :
    (explanationPrompt ⟨t, .intermediate, none⟩).length = 176 + t.length := by
  simp only [explanationPrompt, String.length_append]
  rw [show ("Provide a quick revision summary of \"" : String).length = 37 from rfl,
    show ("\". Focus on key points, important concepts, and essential information. Make it concise but comprehensive for someone who needs a refresher." : String).length = 139 from rfl]
  omega

theorem explanationPrompt_len_advanced (t : String) :
    (explanationPrompt ⟨t, .advanced, none⟩).length = 200 + t.length := by
  simp only [explanationPrompt, String.length_append]
  rw [show ("Provide a college-level, in-depth explanation of \"" : String).length = 50 from rfl,
    show ("\". Include technical details, theoretical foundations, practical applications, and advanced concepts. Assume the reader has some background knowledge." : String).length = 150 from rfl]
  omega

/-! ## Claims -/

/-- C1 counterexample: on valid JSON violating the expected quiz shape
(three options, `correctAnswer` 5), `generateQuiz` does not fail with a
shape error — it returns the malformed value as a successful result. -/
theorem C1_counterexample :
    Part002.generateQuizFromText ("\x7b\"questions\":[\x7b\"question\":\"Q\",\"options\":[\"A\",\"B\",\"C\"],\"correctAnswer\":5,\"explanation\":\"E\"\x7d]\x7d")
      = Except.ok (Json.obj [("questions", Json.arr [Json.obj
          [("question", Json.str ("Q")),
           ("options", Json.arr [Json.str ("A"), Json.str ("B"), Json.str ("C")]),
           ("correctAnswer", Json.num 5 0),
           ("explanation", Json.str ("E"))]])]) := rfl

/-- C1 (amended): `generateQuiz` performs no shape validation at all:
whenever the cleaned text parses as JSON, the parsed value — whatever
its shape — is returned as the successful result; no `ShapeMismatch`
error exists in the code. -/
theorem C1_no_shape_validation (raw : String) (v : Json)
    (h : jsonParse (stripFences raw) = some v) :
    Part002.generateQuizFromText raw = Except.ok v := by
  unfold Part002.generateQuizFromText
  rw [h]

/-- C1 witness: even a bare number is accepted as a quiz response. -/
theorem C1_no_shape_validation_witness :
    Part002.generateQuizFromText ("5") = Except.ok (Json.num 5 0) :=
  C1_no_shape_validation ("5") (Json.num 5 0) rfl

/-- C2 counterexample: for the free-form explanation task, empty raw
text does not fail with an empty-response error — it is returned as a
successful result with empty content. -/
theorem C2_counterexample :
    GeminiTs.generateExplanationFromText ("") = Except.ok ("")
  ∧ Part002.generateExplanationFromText ("") = Except.ok ("") :=
  ⟨rfl, rfl⟩

/-- C2 (amended): only the structured tasks fail on empty raw text (the
`gemini.ts` quiz variant throws its internal empty-response error, which
the catch collapses into the generic failure; the `part_002` variants
fail because `JSON.parse` rejects the empty string); the free-form
explanation task performs no empty check and returns empty content as
success (or, in the second `gemini.ts` variant, substitutes a
placeholder). -/
theorem C2_empty_text_behaviour :
    GeminiTs.quizAttempt ("") = Except.error (GeminiTs.QuizFailure.emptyResponse)
  ∧ GeminiTs.generateQuizFromText ("") = Except.error ("Failed to generate quiz")
  ∧ GeminiTs.generateFlashcardsFromText ("") = Except.error ("Failed to generate flashcards")
  ∧ GeminiTs.generateInterviewQuestionsFromText ("") = Except.error ("Failed to generate interview questions")
  ∧ Part002.generateQuizFromText ("") = Except.error ("Failed to generate quiz")
  ∧ Part002.generateFlashcardsFromText ("") = Except.error ("Failed to generate flashcards")
  ∧ Part002.generateInterviewQuestionsFromText ("") = Except.error ("Failed to generate interview questions")
  ∧ GeminiTs.generateExplanationFromText ("") = Except.ok ("")
  ∧ GeminiV2.generateExplanationFromText (some ("")) = Except.ok ("Unable to generate explanation.") :=
  ⟨rfl, rfl, rfl, rfl, rfl, rfl, rfl, rfl, rfl⟩

/-- C3 counterexample: invalid JSON makes the quiz task fail, but with
the fixed generic message, which does not contain the raw text — the
original text is not carried in the error. -/
theorem C3_counterexample :
    Part002.generateQuizFromText ("\x7bnot json") = Except.error ("Failed to generate quiz")
  ∧ ¬ occursIn (("\x7bnot json" : String).data) (("Failed to generate quiz" : String).data) := by
  refine ⟨rfl, ?_⟩
  rw [show occursIn (("\x7bnot json" : String).data) (("Failed to generate quiz" : String).data)
      ↔ occursInB (("\x7bnot json" : String).data) (("Failed to generate quiz" : String).data) = true
    from (occursInB_iff _ _).symm]
  decide

/-- C3 (amended): when the cleaned text is not valid JSON the structured
task fails, but with the fixed generic error `"Failed to generate
quiz"`; the raw text is not attached to the error (the parse exception
is only logged to the console). -/
theorem C3_generic_parse_error (raw : String)
    (h : jsonParse (stripFences raw) = none) :
    Part002.generateQuizFromText raw = Except.error ("Failed to generate quiz") := by
  unfold Part002.generateQuizFromText
  rw [h]

/-- C3 witness at the spec's example input. -/
theorem C3_generic_parse_error_witness :
    Part002.generateQuizFromText ("\x7bnot json") = Except.error ("Failed to generate quiz") :=
  C3_generic_parse_error ("\x7bnot json") rfl

/-- C4: the fenced well-formed payload round-trips: `generateQuiz`
succeeds and the result carries exactly one question with
`correctAnswer` 2 and exactly four options. -/
theorem C4_roundtrip :
    (okValue (Part002.generateQuizFromText ("```json\n\x7b\"questions\":[\x7b\"question\":\"Q\",\"options\":[\"A\",\"B\",\"C\",\"D\"],\"correctAnswer\":2,\"explanation\":\"E\"\x7d]\x7d\n```"))).bind
        (fun v => v.getField ("questions"))
      = some (Json.arr [Json.obj
          [("question", Json.str ("Q")),
           ("options", Json.arr [Json.str ("A"), Json.str ("B"), Json.str ("C"), Json.str ("D")]),
           ("correctAnswer", Json.num 2 0),
           ("explanation", Json.str ("E"))]]) := rfl

/-- C5 counterexample: the free-form explanation result is not trimmed:
raw text with surrounding whitespace is returned with the whitespace
intact, not as the trimmed string the spec describes. -/
theorem C5_counterexample :
    GeminiTs.generateExplanationFromText (" x ") = Except.ok (" x ")
  ∧ specTrimmed (" x ") = "x"
  ∧ (" x " : String) ≠ "x" :=
  ⟨rfl, rfl, by decide⟩

/-- C5 (amended): free-form tasks perform no JSON parsing and return
the raw provider text verbatim — not trimmed — as the successful
result (for the chat reply, whenever the content is non-empty). -/
theorem C5_verbatim_text (raw : String) (h : raw ≠ "") :
    GeminiTs.generateExplanationFromText raw = Except.ok raw
  ∧ Part002.generateExplanationFromText raw = Except.ok raw
  ∧ Part002.generateChatResponseFromContent (some raw) = Except.ok raw := by
  refine ⟨rfl, rfl, ?_⟩
  unfold Part002.generateChatResponseFromContent
  simp [h]

/-- C5 witness: text with an unbalanced brace still succeeds verbatim. -/
theorem C5_verbatim_text_witness :
    GeminiTs.generateExplanationFromText ("Left brace \x7b") = Except.ok ("Left brace \x7b")
  ∧ Part002.generateExplanationFromText ("Left brace \x7b") = Except.ok ("Left brace \x7b")
  ∧ Part002.generateChatResponseFromContent (some ("Left brace \x7b")) = Except.ok ("Left brace \x7b") :=
  C5_verbatim_text ("Left brace \x7b") (by decide)

/-- C6 counterexample: three generation functions substitute a fixed
placeholder string for missing provider output and return it as a
successful result. -/
theorem C6_counterexample :
    GeminiV2.generateExplanationFromText (some ("")) = Except.ok ("Unable to generate explanation.")
  ∧ GeminiV2.analyzeQuizPerformanceFromText (none) = Except.ok ("Unable to analyze performance.")
  ∧ Part002.generateChatResponseFromContent (none) = Except.ok ("I\x27m not sure how to respond to that. Can you ask another way?") :=
  ⟨rfl, rfl, rfl⟩

/-- C6 (amended): structured tasks substitute no defaults — a
successful quiz result can only be the genuinely parsed value — but the
free-form wrappers (`generateExplanation` and `analyzeQuizPerformance`
in the second `gemini.ts` variant, and the chat reply in `part_002`) do
substitute fixed placeholder strings for empty or absent provider text
and return them as successes. -/
theorem C6_failure_propagation :
    (∀ (raw : String) (v : Json), Part002.generateQuizFromText raw = Except.ok v →
        jsonParse (stripFences raw) = some v)
  ∧ GeminiV2.generateExplanationFromText (none) = Except.ok ("Unable to generate explanation.")
  ∧ GeminiV2.analyzeQuizPerformanceFromText (some ("")) = Except.ok ("Unable to analyze performance.")
  ∧ Part002.generateChatResponseFromContent (some ("")) = Except.ok ("I\x27m not sure how to respond to that. Can you ask another way?") := by
  refine ⟨?_, rfl, rfl, rfl⟩
  intro raw v h
  unfold Part002.generateQuizFromText at h
  split at h
  · rename_i w heq
    injection h with h1
    rw [← h1]
    exact heq
  · exact absurd h (by simp)

/-- C6 witness: the universally quantified part applied at a concrete
successful parse. -/
theorem C6_failure_propagation_witness :
    jsonParse (stripFences ("5")) = some (Json.num 5 0)
  ∧ GeminiV2.generateExplanationFromText (none) = Except.ok ("Unable to generate explanation.") :=
  ⟨C6_failure_propagation.1 ("5") (Json.num 5 0) rfl, C6_failure_propagation.2.1⟩

/-- C8: for each of the three difficulty levels the prompt builder
selects exactly one fixed instruction template, the three templates are
pairwise distinct (selection is total and exclusive, with no silent
fall-through), and a present (truthy) context is appended verbatim as
the context block. -/
theorem C8_difficulty_templates :
    (∀ topic : String,
        explanationPrompt ⟨topic, .beginner, none⟩ ≠ explanationPrompt ⟨topic, .intermediate, none⟩
      ∧ explanationPrompt ⟨topic, .beginner, none⟩ ≠ explanationPrompt ⟨topic, .advanced, none⟩
      ∧ explanationPrompt ⟨topic, .intermediate, none⟩ ≠ explanationPrompt ⟨topic, .advanced, none⟩)
  ∧ (∀ (topic : String) (d : Difficulty) (c : String), c ≠ "" →
      explanationPrompt ⟨topic, d, some c⟩
        = explanationPrompt ⟨topic, d, none⟩ ++ " Context: " ++ c) := by
  constructor
  · intro topic
    refine ⟨?_, ?_, ?_⟩ <;> intro h <;> have hl := congrArg String.length h
    · rw [explanationPrompt_len_beginner, explanationPrompt_len_intermediate] at hl; omega
    · rw [explanationPrompt_len_beginner, explanationPrompt_len_advanced] at hl; omega
    · rw [explanationPrompt_len_intermediate, explanationPrompt_len_advanced] at hl; omega
  · intro topic d c hc
    cases d <;> simp [explanationPrompt, hc]

/-- C8 witness: concrete template selection and context appending. -/
theorem C8_difficulty_templates_witness :
    explanationPrompt ⟨"Recursion", Difficulty.beginner, some ("course notes")⟩
      = explanationPrompt ⟨"Recursion", Difficulty.beginner, none⟩ ++ " Context: " ++ "course notes"
  ∧ explanationPrompt ⟨"Recursion", Difficulty.beginner, none⟩
      ≠ explanationPrompt ⟨"Recursion", Difficulty.intermediate, none⟩ :=
  ⟨C8_difficulty_templates.2 ("Recursion") Difficulty.beginner ("course notes") (by decide),
   (C8_difficulty_templates.1 ("Recursion")).1⟩

/-- C9: the fence stripping is a global replace, not a prefix/suffix
strip: a provider payload whose JSON string value contains a
triple-backtick run parses to different string contents after the
cleanup than the contents the provider produced. -/
theorem C9_interior_fences :
    (jsonParse ("\x7b\"questions\":[\x7b\"question\":\"Use ``` fences\",\"options\":[\"A\",\"B\",\"C\",\"D\"],\"correctAnswer\":0,\"explanation\":\"E\"\x7d]\x7d")).bind
        (fun v => v.getField ("questions"))
      = some (Json.arr [Json.obj
          [("question", Json.str ("Use ``` fences")),
           ("options", Json.arr [Json.str ("A"), Json.str ("B"), Json.str ("C"), Json.str ("D")]),
           ("correctAnswer", Json.num 0 0),
           ("explanation", Json.str ("E"))]])
  ∧ (okValue (Part002.generateQuizFromText ("\x7b\"questions\":[\x7b\"question\":\"Use ``` fences\",\"options\":[\"A\",\"B\",\"C\",\"D\"],\"correctAnswer\":0,\"explanation\":\"E\"\x7d]\x7d"))).bind
        (fun v => v.getField ("questions"))
      = some (Json.arr [Json.obj
          [("question", Json.str ("Use  fences")),
           ("options", Json.arr [Json.str ("A"), Json.str ("B"), Json.str ("C"), Json.str ("D")]),
           ("correctAnswer", Json.num 0 0),
           ("explanation", Json.str ("E"))]])
  ∧ ("Use ``` fences" : String) ≠ ("Use  fences" : String) :=
  ⟨rfl, rfl, by decide⟩

/-- C10: a context that is present but equal to the empty string is
treated exactly like an absent one: the constructed prompt is the bare
difficulty template, with no context block appended. -/
theorem C10_empty_context (topic : String) (d : Difficulty) :
    explanationPrompt ⟨topic, d, some ""⟩ = explanationPrompt ⟨topic, d, none⟩ := by
  cases d <;> simp [explanationPrompt]
